import Mathlib

/-!
Shallow embedding of the opendal core (memory backend and S3 backend)
from src/src/services/memory/backend.rs and src/src/services/s3/backend.rs.

Byte sequences are modelled as lists of naturals, string keys as Lean
strings (the keys appearing in the claims are ASCII, so char positions
coincide with the Rust byte positions), and the backing HashMap as an
association list whose order stands in for the map's iteration order.
-/

namespace OpenDAL

/-- Error kinds of the error taxonomy (std::io::ErrorKind as used by the code). -/
inductive ErrorKind where
  | notFound
  | permissionDenied
  | interrupted
  | other
deriving DecidableEq, Repr

/-- Errors as the code builds them: a path-scoped ObjectError carries the
operation name and the path; a BackendError is backend-scoped. The free-form
cause chain is not modelled. -/
inductive Err where
  | objectError (kind : ErrorKind) (op : String) (path : String)
  | backendError (kind : ErrorKind)
deriving DecidableEq, Repr

/-- Object modes (crate::ObjectMode). -/
inductive ObjectMode where
  | FILE
  | DIR
  | Unknown
deriving DecidableEq, Repr

/-- Object metadata; only the fields the memory backend sets are modelled. -/
structure ObjectMetadata where
  mode : ObjectMode
  content_length : Option Nat
deriving DecidableEq, Repr

/-- A byte sequence (bytes::Bytes / Vec of u8). -/
abbrev Bytes := List Nat

/-- The memory backend's HashMap of String to Bytes, as an association list;
list order stands in for the (unspecified) HashMap iteration order. -/
abbrev MemMap := List (String × Bytes)

/-- HashMap::get. -/
def MemMap.get : MemMap → String → Option Bytes
  | [], _ => none
  | (k, v) :: rest, key => if k = key then some v else MemMap.get rest key

/-- HashMap::insert (replaces an existing entry for the key). -/
def MemMap.insert : MemMap → String → Bytes → MemMap
  | [], key, val => [(key, val)]
  | (k, v) :: rest, key, val =>
    if k = key then (key, val) :: rest else (k, v) :: MemMap.insert rest key val

/-- HashMap::remove (drops the entry for the key if present). -/
def MemMap.remove : MemMap → String → MemMap
  | [], _ => []
  | (k, v) :: rest, key =>
    if k = key then rest else (k, v) :: MemMap.remove rest key

/-- OpRead {path, offset?, size?}. -/
structure OpRead where
  path : String
  offset : Option Nat
  size : Option Nat

/-- True when the path's final character is a slash (str::ends_with of a slash). -/
def endsWithSlash (p : String) : Bool :=
  match p.data.getLast? with
  | some c => c == '/'
  | none => false

namespace Memory

/-- The offset window of Backend::read: with an offset present, an offset at or
past the data length is an out-of-bound Other error, otherwise the data is
sliced from the offset to its end. -/
def applyOffset (data : Bytes) (path : String) (offset : Option Nat) : Except Err Bytes :=
  match offset with
  | none => .ok data
  | some o =>
    if o ≥ data.length then .error (.objectError .other "read" path)
    else .ok (data.drop o)

/-- The size window of Backend::read: with a size present, a size larger than
the (already offset-sliced) data length is an out-of-bound Other error,
otherwise the data is truncated to the size. -/
def applySize (data : Bytes) (path : String) (size : Option Nat) : Except Err Bytes :=
  match size with
  | none => .ok data
  | some s =>
    if s > data.length then .error (.objectError .other "read" path)
    else .ok (data.take s)

/-- Backend::read of the memory backend: look the key up (NotFound when
absent), then apply the offset window and the size window in turn. -/
def read (m : MemMap) (args : OpRead) : Except Err Bytes :=
  match m.get args.path with
  | none => .error (.objectError .notFound "read" args.path)
  | some data =>
    match applyOffset data args.path args.offset with
    | .error e => .error e
    | .ok data =>
      match applySize data args.path args.size with
      | .error e => .error e
      | .ok data => .ok data

/-- The MapWriter returned by Backend::write: path, declared size, buffer. -/
structure MapWriter where
  path : String
  size : Nat
  buf : Bytes

/-- Backend::write: a fresh writer with an empty buffer. -/
def write (path : String) (size : Nat) : MapWriter :=
  { path := path, size := size, buf := [] }

/-- MapWriter::poll_write: append the chunk to the buffer, report its length. -/
def MapWriter.poll_write (w : MapWriter) (bs : Bytes) : MapWriter × Nat :=
  ({ w with buf := w.buf ++ bs }, bs.length)

/-- MapWriter::poll_close: a buffer whose length differs from the declared size
is a short write and fails with an Other error, leaving the map untouched;
otherwise the buffer replaces the map entry for the path. -/
def MapWriter.poll_close (w : MapWriter) (m : MemMap) : Except Err Unit × MemMap :=
  if w.buf.length ≠ w.size then
    (.error (.objectError .other "write" w.path), m)
  else
    (.ok (), m.insert w.path w.buf)

/-- Backend::stat of the memory backend: a trailing slash is synthesized as a
DIR; otherwise the key is looked up, NotFound on absence (the code labels this
error with operation name "read"), FILE metadata with the length on presence. -/
def stat (m : MemMap) (path : String) : Except Err ObjectMetadata :=
  if endsWithSlash path then .ok { mode := ObjectMode.DIR, content_length := none }
  else
    match m.get path with
    | none => .error (.objectError .notFound "read" path)
    | some data => .ok { mode := ObjectMode.FILE, content_length := some data.length }

/-- Backend::delete of the memory backend: remove the key (absence ignored),
always returning success; the resulting map is returned alongside. -/
def delete (m : MemMap) (path : String) : Except Err Unit × MemMap :=
  (.ok (), m.remove path)

/-- Rust str::starts_with on char lists. -/
def charsStartWith : List Char → List Char → Bool
  | _, [] => true
  | [], _ :: _ => false
  | c :: cs, p :: ps => c == p && charsStartWith cs ps

/-- Rust str::starts_with. -/
def strStartsWith (s p : String) : Bool :=
  charsStartWith s.data p.data

/-- The same-level filter of Backend::list: the key slice after the path
either holds no slash, or its first slash is the key's final character. -/
def sameLevel (path k : String) : Bool :=
  match (k.data.drop path.data.length).findIdx? (fun c => c == '/') with
  | none => true
  | some idx => idx + 1 + path.data.length == k.data.length

/-- Backend::list of the memory backend combined with DirStream::poll_next:
a root path of "/" is cleared to the empty string; the keys starting with the
path, differing from it, and at the same level are kept, and each becomes an
entry whose mode is DIR exactly when the key ends with a slash. -/
def list (m : MemMap) (path0 : String) : List (String × ObjectMode) :=
  let path := if path0 = "/" then "" else path0
  let paths := (m.map Prod.fst).filter fun k =>
    (strStartsWith k path && !(k == path)) && sameLevel path k
  paths.map fun p =>
    if endsWithSlash p then (p, ObjectMode.DIR) else (p, ObjectMode.FILE)

end Memory

/-- Fuel-driven worker for Rust str::replace: replace every non-overlapping
occurrence of the pattern, left to right. The fuel starts at the string length
and bounds the recursion; it never runs out because each step consumes at
least one character. -/
def replaceAllFuel : Nat → List Char → List Char → List Char → List Char
  | 0, s, _, _ => s
  | _ + 1, [], _, _ => []
  | fuel + 1, c :: cs, pat, rep =>
    if Memory.charsStartWith (c :: cs) pat && !pat.isEmpty then
      rep ++ replaceAllFuel fuel ((c :: cs).drop pat.length) pat rep
    else
      c :: replaceAllFuel fuel cs pat rep

/-- Rust str::replace (all occurrences); the patterns used here are nonempty. -/
def strReplace (s pat rep : String) : String :=
  String.mk (replaceAllFuel s.data.length s.data pat.data rep.data)

/-- Rust str::trim_end_matches of a slash: drop every trailing slash. -/
def trimEndSlashes (s : String) : String :=
  String.mk (((s.data.reverse).dropWhile (fun c => c == '/')).reverse)

namespace S3

/-- The ENDPOINT_TEMPLATES map: the AWS global endpoint maps to the regional
template. -/
def ENDPOINT_TEMPLATES (e : String) : Option String :=
  if e = "https://s3.amazonaws.com" then some "https://s3.\x7bregion\x7d.amazonaws.com"
  else none

/-- Header-name constants of the s3 backend. -/
def X_AMZ_SERVER_SIDE_ENCRYPTION : String := "x-amz-server-side-encryption"

/-- Header-name constant for the SSE customer algorithm. -/
def X_AMZ_SERVER_SIDE_ENCRYPTION_CUSTOMER_ALGORITHM : String :=
  "x-amz-server-side-encryption-customer-algorithm"

/-- Header-name constant for the SSE customer key. -/
def X_AMZ_SERVER_SIDE_ENCRYPTION_CUSTOMER_KEY : String :=
  "x-amz-server-side-encryption-customer-key"

/-- Header-name constant for the SSE customer key MD5. -/
def X_AMZ_SERVER_SIDE_ENCRYPTION_CUSTOMER_KEY_MD5 : String :=
  "x-amz-server-side-encryption-customer-key-md5"

/-- Header-name constant for the SSE KMS key id. -/
def X_AMZ_SERVER_SIDE_ENCRYPTION_AWS_KMS_KEY_ID : String :=
  "x-amz-server-side-encryption-aws-kms-key-id"

/-- The s3 Builder's option record (services/s3/backend.rs). -/
structure Builder where
  root : Option String
  bucket : String
  endpoint : Option String
  region : Option String
  access_key_id : Option String
  secret_access_key : Option String
  server_side_encryption : Option String
  server_side_encryption_aws_kms_key_id : Option String
  server_side_encryption_customer_algorithm : Option String
  server_side_encryption_customer_key : Option String
  server_side_encryption_customer_key_md5 : Option String
  disable_credential_loader : Bool
  enable_virtual_host_style : Bool

/-- Builder::default(). -/
def Builder.default : Builder :=
  { root := none, bucket := "", endpoint := none, region := none,
    access_key_id := none, secret_access_key := none,
    server_side_encryption := none,
    server_side_encryption_aws_kms_key_id := none,
    server_side_encryption_customer_algorithm := none,
    server_side_encryption_customer_key := none,
    server_side_encryption_customer_key_md5 := none,
    disable_credential_loader := false,
    enable_virtual_host_style := false }

/-- Builder::endpoint setter: an empty value is ignored; trailing slashes are
trimmed. -/
def Builder.set_endpoint (b : Builder) (endpoint : String) : Builder :=
  if endpoint = "" then b
  else { b with endpoint := some (trimEndSlashes endpoint) }

/-- Builder::region setter: an empty value is ignored. -/
def Builder.set_region (b : Builder) (region : String) : Builder :=
  if region = "" then b
  else { b with region := some region }

/-- The Debug rendering of an Option of String (values printed in the clear). -/
def optDebug : Option String → String
  | none => "None"
  | some v => "Some(\"" ++ v ++ "\")"

/-- The Debug rendering of a Bool. -/
def boolDebug (b : Bool) : String :=
  if b then "true" else "false"

/-- The Debug impl of the s3 Builder as its list of printed fields: the
non-secret fields are printed in the clear (the code prints the
disable_credential_loader value under the enable_virtual_host_style label),
and each set secret option is printed as the fixed text of a redaction. -/
def debugFields (b : Builder) : List (String × String) :=
  let d := [("root", optDebug b.root),
            ("bucket", "\"" ++ b.bucket ++ "\""),
            ("endpoint", optDebug b.endpoint),
            ("region", optDebug b.region),
            ("disable_credential_loader", boolDebug b.disable_credential_loader),
            ("enable_virtual_host_style", boolDebug b.disable_credential_loader)]
  let d := if b.access_key_id.isSome then d ++ [("access_key_id", "<redacted>")] else d
  let d := if b.secret_access_key.isSome then d ++ [("secret_access_key", "<redacted>")] else d
  let d := if b.server_side_encryption.isSome then
      d ++ [("server_side_encryption", "<redacted>")] else d
  let d := if b.server_side_encryption_aws_kms_key_id.isSome then
      d ++ [("server_side_encryption_aws_kms_key_id", "<redacted>")] else d
  let d := if b.server_side_encryption_customer_algorithm.isSome then
      d ++ [("server_side_encryption_customer_algorithm", "<redacted>")] else d
  let d := if b.server_side_encryption_customer_key.isSome then
      d ++ [("server_side_encryption_customer_key", "<redacted>")] else d
  let d := if b.server_side_encryption_customer_key_md5.isSome then
      d ++ [("server_side_encryption_customer_key_md5", "<redacted>")] else d
  d

/-- The endpoint normalization at the head of Builder::detect_region: default
to the AWS global endpoint when absent, prepend the https scheme when the
endpoint does not start with http, and strip a bucket subdomain. -/
def normalize_endpoint (endpoint : Option String) (bucket : String) : String :=
  let e := match endpoint with
    | some ep => if Memory.strStartsWith ep "http" then ep else "https://" ++ ep
    | none => "https://s3.amazonaws.com"
  strReplace e ("//" ++ bucket ++ ".") "//"

/-- The HEAD response detect_region consults when no region is supplied:
status plus the optional x-amz-bucket-region header. -/
structure HeadResp where
  status : Nat
  bucketRegion : Option String

/-- Builder::detect_region: with a supplied region, substitute it into the
endpoint template when the normalized endpoint matches one, else keep the
normalized endpoint; with no region, consult the HEAD response (200/403 read
the bucket-region header defaulting to us-east-1; 301 requires the header and
a matching template; anything else fails). -/
def detect_region (b : Builder) (bucket : String) (resp : HeadResp) :
    Except Err (String × String) :=
  let endpoint := normalize_endpoint b.endpoint bucket
  match b.region with
  | some region =>
    let endpoint := match ENDPOINT_TEMPLATES endpoint with
      | some template => strReplace template "\x7bregion\x7d" region
      | none => endpoint
    .ok (endpoint, region)
  | none =>
    match resp.status with
    | 200 => .ok (endpoint, resp.bucketRegion.getD "us-east-1")
    | 403 => .ok (endpoint, resp.bucketRegion.getD "us-east-1")
    | 301 =>
      match resp.bucketRegion with
      | none => .error (.backendError .other)
      | some region =>
        match ENDPOINT_TEMPLATES endpoint with
        | none => .error (.backendError .other)
        | some template => .ok (strReplace template "\x7bregion\x7d" region, region)
    | _ => .error (.backendError .other)

/-- The s3 Backend fields the request builders consult (bucket, endpoint and
the five SSE header values). -/
structure Backend where
  bucket : String
  endpoint : String
  root : String
  server_side_encryption : Option String
  server_side_encryption_aws_kms_key_id : Option String
  server_side_encryption_customer_algorithm : Option String
  server_side_encryption_customer_key : Option String
  server_side_encryption_customer_key_md5 : Option String

/-- An HTTP request as the builders assemble it: method, url and the header
list in insertion order. -/
structure HttpReq where
  method : String
  url : String
  headers : List (String × String)

/-- Backend::insert_sse_headers: on writes, append the server-side-encryption
header and the KMS key id header when configured; on every call, append the
customer triplet when configured. -/
def insert_sse_headers (b : Backend) (req : HttpReq) (is_write : Bool) : HttpReq :=
  let req := if is_write then
    let req := match b.server_side_encryption with
      | some v => { req with headers := req.headers ++ [(X_AMZ_SERVER_SIDE_ENCRYPTION, v)] }
      | none => req
    let req := match b.server_side_encryption_aws_kms_key_id with
      | some v =>
        { req with headers := req.headers ++ [(X_AMZ_SERVER_SIDE_ENCRYPTION_AWS_KMS_KEY_ID, v)] }
      | none => req
    req
  else req
  let req := match b.server_side_encryption_customer_algorithm with
    | some v =>
      { req with headers := req.headers ++ [(X_AMZ_SERVER_SIDE_ENCRYPTION_CUSTOMER_ALGORITHM, v)] }
    | none => req
  let req := match b.server_side_encryption_customer_key with
    | some v =>
      { req with headers := req.headers ++ [(X_AMZ_SERVER_SIDE_ENCRYPTION_CUSTOMER_KEY, v)] }
    | none => req
  let req := match b.server_side_encryption_customer_key_md5 with
    | some v =>
      { req with headers := req.headers ++ [(X_AMZ_SERVER_SIDE_ENCRYPTION_CUSTOMER_KEY_MD5, v)] }
    | none => req
  req

/-- Modelled from the spec: the rendering of ops::BytesRange (not under src/)
into a Range header value, bytes from a = offset-or-zero through
a + size - 1 when a size is set, open-ended otherwise. -/
def bytesRangeHeader (offset size : Option Nat) : String :=
  let a := offset.getD 0
  match size with
  | some s => "bytes=" ++ toString a ++ "-" ++ toString (a + s - 1)
  | none => "bytes=" ++ toString a ++ "-"

/-- Backend::get_object's request (used by read): a GET with a Range header
when an offset or a size is set, then the SSE headers with is_write false. -/
def get_object (b : Backend) (path : String) (offset size : Option Nat) : HttpReq :=
  let req : HttpReq := { method := "GET", url := b.endpoint ++ "/" ++ path, headers := [] }
  let req := if offset.isSome || size.isSome then
      { req with headers := req.headers ++ [("range", bytesRangeHeader offset size)] }
    else req
  insert_sse_headers b req false

/-- Backend::put_object's request (used by write with the declared size, and by
create with size zero): a PUT with a content-length header, then the SSE
headers with is_write true. -/
def put_object (b : Backend) (path : String) (size : Nat) : HttpReq :=
  let req : HttpReq := { method := "PUT", url := b.endpoint ++ "/" ++ path, headers := [] }
  let req := { req with headers := req.headers ++ [("content-length", toString size)] }
  insert_sse_headers b req true

/-- Backend::head_object's request (used by stat): a HEAD, then the SSE headers
with is_write false. -/
def head_object (b : Backend) (path : String) : HttpReq :=
  let req : HttpReq := { method := "HEAD", url := b.endpoint ++ "/" ++ path, headers := [] }
  insert_sse_headers b req false

/-- parse_error_kind: the status-to-kind mapping of the s3 backend. -/
def parse_error_kind (code : Nat) : ErrorKind :=
  match code with
  | 404 => .notFound
  | 403 => .permissionDenied
  | 500 | 502 | 503 | 504 => .interrupted
  | _ => .other

/-- Modelled from the spec: parse_error_response (io_util, not under src/)
builds a path-scoped error carrying the operation name, with the kind taken
from the supplied status-to-kind function. -/
def parse_error_response (op : String) (path : String) (kind : Nat → ErrorKind)
    (status : Nat) : Err :=
  .objectError (kind status) op path

/-- The status handling of the s3 Backend::delete: 204 No Content is success,
every other status is mapped through parse_error_response. -/
def delete_result (status : Nat) (path : String) : Except Err Unit :=
  match status with
  | 204 => .ok ()
  | _ => .error (parse_error_response "delete" path parse_error_kind status)

/-- A header fragment: the singleton header list an Option produces (empty
when the option is unset). Used to state what insert_sse_headers appends. -/
def optHeader (name : String) (v : Option String) : List (String × String) :=
  match v with
  | none => []
  | some s => [(name, s)]

end S3

/-- The map of the spec's memory-backend listing scenario: exactly the keys
"a/b", "a/c/", "a/c/d" and "e" (all with empty contents). -/
def exampleMap : MemMap := [("a/b", []), ("a/c/", []), ("a/c/d", []), ("e", [])]

/-- A builder configured the way the s3 test_detect_region unit test does it:
apply the endpoint setter and the region setter when the case supplies them. -/
def s3TestBuilder (endpoint : Option String) (region : Option String) : S3.Builder :=
  let b := S3.Builder.default
  let b := match endpoint with | some e => b.set_endpoint e | none => b
  match region with | some r => b.set_region r | none => b

/-- A concrete s3 backend with every SSE option configured. -/
def s3ExampleBackend : S3.Backend :=
  { bucket := "b", endpoint := "https://s3.us-east-2.amazonaws.com/b", root := "/",
    server_side_encryption := some "aws:kms",
    server_side_encryption_aws_kms_key_id := some "kid",
    server_side_encryption_customer_algorithm := some "AES256",
    server_side_encryption_customer_key := some "key",
    server_side_encryption_customer_key_md5 := some "md5" }

/-- A concrete builder with credentials set. -/
def s3BuilderA : S3.Builder :=
  { S3.Builder.default with
      bucket := "b",
      access_key_id := some "AKIA1",
      secret_access_key := some "S1" }

/-- The same builder with different credential values. -/
def s3BuilderB : S3.Builder :=
  { S3.Builder.default with
      bucket := "b",
      access_key_id := some "AKIA2",
      secret_access_key := some "S2" }

theorem MemMap.get_insert (m : MemMap) (k : String) (v : Bytes) :
    (m.insert k v).get k = some v := by
  induction m with
  | nil => simp [MemMap.insert, MemMap.get]
  | cons hd tl ih =>
    by_cases h : hd.1 = k
    · simp [MemMap.insert, MemMap.get, h]
    · simp [MemMap.insert, MemMap.get, h, ih]

theorem MemMap.remove_of_get_none (m : MemMap) (k : String) (h : m.get k = none) :
    m.remove k = m := by
  induction m with
  | nil => simp [MemMap.remove]
  | cons hd tl ih =>
    by_cases hk : hd.1 = k
    · simp [MemMap.get, hk] at h
    · simp [MemMap.get, hk] at h
      simp [MemMap.remove, hk, ih h]

theorem S3.insert_sse_headers_headers (b : S3.Backend) (req : S3.HttpReq) (w : Bool) :
    (S3.insert_sse_headers b req w).headers =
      req.headers
        ++ (if w then
              S3.optHeader S3.X_AMZ_SERVER_SIDE_ENCRYPTION b.server_side_encryption
              ++ S3.optHeader S3.X_AMZ_SERVER_SIDE_ENCRYPTION_AWS_KMS_KEY_ID
                   b.server_side_encryption_aws_kms_key_id
            else [])
        ++ S3.optHeader S3.X_AMZ_SERVER_SIDE_ENCRYPTION_CUSTOMER_ALGORITHM
             b.server_side_encryption_customer_algorithm
        ++ S3.optHeader S3.X_AMZ_SERVER_SIDE_ENCRYPTION_CUSTOMER_KEY
             b.server_side_encryption_customer_key
        ++ S3.optHeader S3.X_AMZ_SERVER_SIDE_ENCRYPTION_CUSTOMER_KEY_MD5
             b.server_side_encryption_customer_key_md5 := by
  obtain ⟨bk, ep, rt, sse, kms, alg, key, md5⟩ := b
  cases w <;> cases sse <;> cases kms <;> cases alg <;> cases key <;> cases md5 <;>
    simp [S3.insert_sse_headers, S3.optHeader]

theorem S3.mem_optHeader {p : String × String} {name : String} {v : Option String}
    (h : p ∈ S3.optHeader name v) : p.1 = name := by
  cases v with
  | none => simp [S3.optHeader] at h
  | some s =>
    simp [S3.optHeader] at h
    rw [h]

theorem S3.read_stat_header_names (b : S3.Backend) (path : String)
    (offset size : Option Nat) (p : String × String)
    (h : p ∈ (S3.get_object b path offset size).headers
         ∨ p ∈ (S3.head_object b path).headers) :
    p.1 = "range"
    ∨ p.1 = S3.X_AMZ_SERVER_SIDE_ENCRYPTION_CUSTOMER_ALGORITHM
    ∨ p.1 = S3.X_AMZ_SERVER_SIDE_ENCRYPTION_CUSTOMER_KEY
    ∨ p.1 = S3.X_AMZ_SERVER_SIDE_ENCRYPTION_CUSTOMER_KEY_MD5 := by
  rcases h with h | h
  · simp only [S3.get_object, S3.insert_sse_headers_headers, List.mem_append] at h
    rcases h with (((h | h) | h) | h) | h
    · split at h
      · simp at h
        subst h
        exact Or.inl rfl
      · simp at h
    · simp at h
    · exact Or.inr (Or.inl (S3.mem_optHeader h))
    · exact Or.inr (Or.inr (Or.inl (S3.mem_optHeader h)))
    · exact Or.inr (Or.inr (Or.inr (S3.mem_optHeader h)))
  · simp only [S3.head_object, S3.insert_sse_headers_headers, List.mem_append] at h
    rcases h with (((h | h) | h) | h) | h
    · simp at h
    · simp at h
    · exact Or.inr (Or.inl (S3.mem_optHeader h))
    · exact Or.inr (Or.inr (Or.inl (S3.mem_optHeader h)))
    · exact Or.inr (Or.inr (Or.inr (S3.mem_optHeader h)))

theorem S3.mem_condAppend {p : String × String} {l : List (String × String)}
    {name val : String} {c : Bool}
    (h : p ∈ (if c then l ++ [(name, val)] else l)) : p ∈ l ∨ p = (name, val) := by
  split at h
  · rcases List.mem_append.mp h with h | h
    · exact Or.inl h
    · simp at h
      exact Or.inr h
  · exact Or.inl h

/-- C1: memory-backend round-trip. For every map, path and byte sequence B,
buffering B into a writer declared for B's length and closing it succeeds and
replaces the map entry with B, and a read of that path with no offset and no
size yields exactly B. -/
theorem mem_write_read_roundtrip (m : MemMap) (p : String) (B : Bytes) :
    ((Memory.write p B.length).poll_write B).1.poll_close m = (.ok (), m.insert p B)
    ∧ Memory.read (m.insert p B) { path := p, offset := none, size := none } = .ok B := by
  constructor
  · simp [Memory.write, Memory.MapWriter.poll_write, Memory.MapWriter.poll_close]
  · simp [Memory.read, MemMap.get_insert, Memory.applyOffset, Memory.applySize]

/-- C2: memory-backend short-write atomicity. Closing a writer whose buffered
length differs from the declared size yields an Other-kind write error and
returns the map exactly as it was; closing with the length equal to the size
succeeds and replaces the entry with the buffered bytes. -/
theorem mem_short_write_atomic (m : MemMap) (w : Memory.MapWriter) :
    (w.buf.length ≠ w.size →
       w.poll_close m = (.error (.objectError .other "write" w.path), m))
    ∧ (w.buf.length = w.size →
       w.poll_close m = (.ok (), m.insert w.path w.buf)) := by
  constructor <;> intro h <;> simp [Memory.MapWriter.poll_close, h]

theorem mem_short_write_atomic_witness :
    (Memory.MapWriter.mk "x" 2 [0]).poll_close [("x", [9])]
      = (.error (.objectError .other "write" "x"), [("x", [9])])
    ∧ (Memory.MapWriter.mk "x" 1 [0]).poll_close [("x", [9])] = (.ok (), [("x", [0])]) := by
  constructor
  · exact (mem_short_write_atomic [("x", [9])] ⟨"x", 2, [0]⟩).1 (by decide)
  · exact ((mem_short_write_atomic [("x", [9])] ⟨"x", 1, [0]⟩).2 rfl).trans (by rfl)

/-- C3: memory-backend read range semantics. For an object with contents B,
a read with offset o below the length and a positive size s at most
length minus o yields exactly the s bytes of B from o; a read with o at or
past the length, or with s exceeding length minus o, fails with an Other-kind
read error. -/
theorem mem_read_range (m : MemMap) (p : String) (B : Bytes) (o s : Nat)
    (h : m.get p = some B) :
    (o < B.length → 0 < s → s ≤ B.length - o →
       Memory.read m { path := p, offset := some o, size := some s }
         = .ok ((B.drop o).take s))
    ∧ (B.length ≤ o ∨ B.length - o < s →
       Memory.read m { path := p, offset := some o, size := some s }
         = .error (.objectError .other "read" p)) := by
  constructor
  · intro ho hs hle
    have h1 : ¬ o ≥ B.length := by omega
    have h2 : ¬ B.length - o < s := by omega
    simp [Memory.read, h, Memory.applyOffset, Memory.applySize, h1, h2]
  · intro hor
    by_cases h1 : o ≥ B.length
    · simp [Memory.read, h, Memory.applyOffset, h1]
    · have h2 : B.length - o < s := by omega
      simp [Memory.read, h, Memory.applyOffset, Memory.applySize, h1, h2]

theorem mem_read_range_witness :
    Memory.read [("p", [1, 2, 3])] { path := "p", offset := some 1, size := some 2 }
      = .ok [2, 3] := by
  exact ((mem_read_range [("p", [1, 2, 3])] "p" [1, 2, 3] 1 2 rfl).1
    (by decide) (by decide) (by decide)).trans (by rfl)

/-- C4 counterexample: with exactly the keys "a/b", "a/c/", "a/c/d" and "e",
listing "/" yields only the entry "e" as a FILE; no derived directory entry
"a/" appears, contradicting the claimed output. -/
theorem mem_list_root_missing_derived_dir :
    Memory.list exampleMap "/" = [("e", ObjectMode.FILE)] := by
  decide

/-- C4 (amended): with exactly the keys "a/b", "a/c/", "a/c/d" and "e",
listing "a/" yields exactly "a/b" as a FILE and "a/c/" as a DIR, and listing
"/" yields exactly "e" as a FILE (no directory entry is derived for "a/"). -/
theorem mem_list_scenario :
    Memory.list exampleMap "a/" = [("a/b", ObjectMode.FILE), ("a/c/", ObjectMode.DIR)]
    ∧ Memory.list exampleMap "/" = [("e", ObjectMode.FILE)] := by
  exact ⟨by decide, by decide⟩

/-- C5: the claim says a stat error carries the operation name "stat", but the
memory backend's stat on an absent key evaluates to a NotFound error carrying
the operation name "read". -/
theorem mem_stat_error_op_is_read :
    Memory.stat [] "x" = .error (.objectError .notFound "read" "x") := rfl

/-- C6: delete of an absent key is success. The memory backend's delete of a
key the map does not hold returns unit and leaves the map unchanged, and the
s3 backend's delete treats the 204 No Content status as success. -/
theorem delete_absent_is_ok (m : MemMap) (p q : String) :
    (m.get p = none → Memory.delete m p = (.ok (), m))
    ∧ S3.delete_result 204 q = .ok () := by
  constructor
  · intro h
    simp [Memory.delete, MemMap.remove_of_get_none m p h]
  · rfl

theorem delete_absent_is_ok_witness :
    Memory.delete [("a", [1])] "q" = (.ok (), [("a", [1])]) :=
  (delete_absent_is_ok [("a", [1])] "q" "q").1 rfl

/-- C7: s3 region detection with a supplied region returns the supplied region
paired with the template with the region substituted when the normalized
endpoint matches a known template, otherwise the normalized endpoint
unchanged; the result does not depend on the HEAD response, so no HTTP
request is consulted. -/
theorem s3_detect_region_supplied (b : S3.Builder) (bucket r : String)
    (resp resp2 : S3.HeadResp) (h : b.region = some r) :
    S3.detect_region b bucket resp
      = .ok ((match S3.ENDPOINT_TEMPLATES (S3.normalize_endpoint b.endpoint bucket) with
              | some template => strReplace template "\x7bregion\x7d" r
              | none => S3.normalize_endpoint b.endpoint bucket), r)
    ∧ S3.detect_region b bucket resp = S3.detect_region b bucket resp2 := by
  constructor <;> simp [S3.detect_region, h]

theorem s3_detect_region_supplied_witness :
    S3.detect_region (s3TestBuilder none (some "us-east-2")) "test" ⟨200, none⟩
      = .ok ("https://s3.us-east-2.amazonaws.com", "us-east-2")
    ∧ S3.detect_region (s3TestBuilder (some "s3.amazonaws.com") (some "us-east-2"))
        "test" ⟨200, none⟩
      = .ok ("https://s3.us-east-2.amazonaws.com", "us-east-2")
    ∧ S3.detect_region (s3TestBuilder (some "https://s3.amazonaws.com") (some "us-east-2"))
        "test" ⟨200, none⟩
      = .ok ("https://s3.us-east-2.amazonaws.com", "us-east-2")
    ∧ S3.detect_region
        (s3TestBuilder (some "https://s3.us-east-2.amazonaws.com") (some "us-east-2"))
        "test" ⟨200, none⟩
      = .ok ("https://s3.us-east-2.amazonaws.com", "us-east-2") := by
  refine ⟨?_, ?_, ?_, ?_⟩ <;>
    exact ((s3_detect_region_supplied _ "test" "us-east-2" ⟨200, none⟩ ⟨301, none⟩ rfl).1).trans
      (by rfl)

/-- C8: s3 SSE header policy. Read (get_object) and stat (head_object)
requests carry each configured customer-triplet header and never carry the
server-side-encryption or KMS-key-id header; write and create requests
(put_object, create is put_object with size zero) carry every configured
header of both families. -/
theorem s3_sse_header_policy (b : S3.Backend) (path : String)
    (offset size : Option Nat) (sz : Nat) :
    ((∀ v, b.server_side_encryption_customer_algorithm = some v →
        (S3.X_AMZ_SERVER_SIDE_ENCRYPTION_CUSTOMER_ALGORITHM, v)
            ∈ (S3.get_object b path offset size).headers
        ∧ (S3.X_AMZ_SERVER_SIDE_ENCRYPTION_CUSTOMER_ALGORITHM, v)
            ∈ (S3.head_object b path).headers)
     ∧ (∀ v, b.server_side_encryption_customer_key = some v →
        (S3.X_AMZ_SERVER_SIDE_ENCRYPTION_CUSTOMER_KEY, v)
            ∈ (S3.get_object b path offset size).headers
        ∧ (S3.X_AMZ_SERVER_SIDE_ENCRYPTION_CUSTOMER_KEY, v)
            ∈ (S3.head_object b path).headers)
     ∧ (∀ v, b.server_side_encryption_customer_key_md5 = some v →
        (S3.X_AMZ_SERVER_SIDE_ENCRYPTION_CUSTOMER_KEY_MD5, v)
            ∈ (S3.get_object b path offset size).headers
        ∧ (S3.X_AMZ_SERVER_SIDE_ENCRYPTION_CUSTOMER_KEY_MD5, v)
            ∈ (S3.head_object b path).headers))
    ∧ (∀ p, p ∈ (S3.get_object b path offset size).headers
            ∨ p ∈ (S3.head_object b path).headers →
        p.1 ≠ S3.X_AMZ_SERVER_SIDE_ENCRYPTION
        ∧ p.1 ≠ S3.X_AMZ_SERVER_SIDE_ENCRYPTION_AWS_KMS_KEY_ID)
    ∧ ((∀ v, b.server_side_encryption = some v →
          (S3.X_AMZ_SERVER_SIDE_ENCRYPTION, v) ∈ (S3.put_object b path sz).headers)
     ∧ (∀ v, b.server_side_encryption_aws_kms_key_id = some v →
          (S3.X_AMZ_SERVER_SIDE_ENCRYPTION_AWS_KMS_KEY_ID, v)
              ∈ (S3.put_object b path sz).headers)
     ∧ (∀ v, b.server_side_encryption_customer_algorithm = some v →
          (S3.X_AMZ_SERVER_SIDE_ENCRYPTION_CUSTOMER_ALGORITHM, v)
              ∈ (S3.put_object b path sz).headers)
     ∧ (∀ v, b.server_side_encryption_customer_key = some v →
          (S3.X_AMZ_SERVER_SIDE_ENCRYPTION_CUSTOMER_KEY, v)
              ∈ (S3.put_object b path sz).headers)
     ∧ (∀ v, b.server_side_encryption_customer_key_md5 = some v →
          (S3.X_AMZ_SERVER_SIDE_ENCRYPTION_CUSTOMER_KEY_MD5, v)
              ∈ (S3.put_object b path sz).headers)) := by
  refine ⟨⟨?_, ?_, ?_⟩, ?_, ?_, ?_, ?_, ?_, ?_⟩
  · intro v hv
    constructor <;>
      simp [S3.get_object, S3.head_object, S3.insert_sse_headers_headers, S3.optHeader, hv]
  · intro v hv
    constructor <;>
      simp [S3.get_object, S3.head_object, S3.insert_sse_headers_headers, S3.optHeader, hv]
  · intro v hv
    constructor <;>
      simp [S3.get_object, S3.head_object, S3.insert_sse_headers_headers, S3.optHeader, hv]
  · intro p hp
    have hnames := S3.read_stat_header_names b path offset size p hp
    constructor <;>
      · rcases hnames with h | h | h | h <;> rw [h] <;>
          simp [S3.X_AMZ_SERVER_SIDE_ENCRYPTION,
                S3.X_AMZ_SERVER_SIDE_ENCRYPTION_AWS_KMS_KEY_ID,
                S3.X_AMZ_SERVER_SIDE_ENCRYPTION_CUSTOMER_ALGORITHM,
                S3.X_AMZ_SERVER_SIDE_ENCRYPTION_CUSTOMER_KEY,
                S3.X_AMZ_SERVER_SIDE_ENCRYPTION_CUSTOMER_KEY_MD5]
  · intro v hv
    simp [S3.put_object, S3.insert_sse_headers_headers, S3.optHeader, hv]
  · intro v hv
    simp [S3.put_object, S3.insert_sse_headers_headers, S3.optHeader, hv]
  · intro v hv
    simp [S3.put_object, S3.insert_sse_headers_headers, S3.optHeader, hv]
  · intro v hv
    simp [S3.put_object, S3.insert_sse_headers_headers, S3.optHeader, hv]
  · intro v hv
    simp [S3.put_object, S3.insert_sse_headers_headers, S3.optHeader, hv]

theorem s3_sse_header_policy_witness :
    (S3.X_AMZ_SERVER_SIDE_ENCRYPTION_CUSTOMER_ALGORITHM, "AES256")
      ∈ (S3.get_object s3ExampleBackend "k" none none).headers
    ∧ (S3.X_AMZ_SERVER_SIDE_ENCRYPTION, "aws:kms")
      ∈ (S3.put_object s3ExampleBackend "k" 3).headers := by
  constructor
  · exact ((s3_sse_header_policy s3ExampleBackend "k" none none 3).1.1 "AES256" rfl).1
  · exact (s3_sse_header_policy s3ExampleBackend "k" none none 3).2.2.1 "aws:kms" rfl

/-- C9: the Debug rendering of the s3 Builder is independent of the secret
values: two builders agreeing on the non-secret fields and on which secret
options are set render identically, and every rendered secret field shows
only the fixed redaction text. -/
theorem s3_builder_debug_redaction :
    (∀ b₁ b₂ : S3.Builder,
       b₁.root = b₂.root → b₁.bucket = b₂.bucket → b₁.endpoint = b₂.endpoint →
       b₁.region = b₂.region →
       b₁.disable_credential_loader = b₂.disable_credential_loader →
       b₁.enable_virtual_host_style = b₂.enable_virtual_host_style →
       b₁.access_key_id.isSome = b₂.access_key_id.isSome →
       b₁.secret_access_key.isSome = b₂.secret_access_key.isSome →
       b₁.server_side_encryption.isSome = b₂.server_side_encryption.isSome →
       b₁.server_side_encryption_aws_kms_key_id.isSome
         = b₂.server_side_encryption_aws_kms_key_id.isSome →
       b₁.server_side_encryption_customer_algorithm.isSome
         = b₂.server_side_encryption_customer_algorithm.isSome →
       b₁.server_side_encryption_customer_key.isSome
         = b₂.server_side_encryption_customer_key.isSome →
       b₁.server_side_encryption_customer_key_md5.isSome
         = b₂.server_side_encryption_customer_key_md5.isSome →
       S3.debugFields b₁ = S3.debugFields b₂)
    ∧ (∀ (b : S3.Builder) (p : String × String), p ∈ S3.debugFields b →
       p.1 = "access_key_id" ∨ p.1 = "secret_access_key"
         ∨ p.1 = "server_side_encryption"
         ∨ p.1 = "server_side_encryption_aws_kms_key_id"
         ∨ p.1 = "server_side_encryption_customer_algorithm"
         ∨ p.1 = "server_side_encryption_customer_key"
         ∨ p.1 = "server_side_encryption_customer_key_md5" →
       p.2 = "<redacted>") := by
  constructor
  · intro b₁ b₂ h1 h2 h3 h4 h5 h6 h7 h8 h9 h10 h11 h12 h13
    simp only [S3.debugFields, h1, h2, h3, h4, h5, h6, h7, h8, h9, h10, h11, h12, h13]
  · intro b p hp hsec
    simp only [S3.debugFields] at hp
    rcases S3.mem_condAppend hp with hp | hp
    rotate_left
    · rw [hp]
    rcases S3.mem_condAppend hp with hp | hp
    rotate_left
    · rw [hp]
    rcases S3.mem_condAppend hp with hp | hp
    rotate_left
    · rw [hp]
    rcases S3.mem_condAppend hp with hp | hp
    rotate_left
    · rw [hp]
    rcases S3.mem_condAppend hp with hp | hp
    rotate_left
    · rw [hp]
    rcases S3.mem_condAppend hp with hp | hp
    rotate_left
    · rw [hp]
    rcases S3.mem_condAppend hp with hp | hp
    rotate_left
    · rw [hp]
    simp at hp
    rcases hp with hp | hp | hp | hp | hp | hp <;> rw [hp] at hsec <;> simp at hsec

theorem s3_builder_debug_redaction_witness :
    S3.debugFields s3BuilderA = S3.debugFields s3BuilderB :=
  s3_builder_debug_redaction.1 s3BuilderA s3BuilderB
    rfl rfl rfl rfl rfl rfl rfl rfl rfl rfl rfl rfl rfl

/-- C10: on the memory backend a zero-length object read with an explicit
offset of zero fails with an Other-kind error while a read with no offset and
no size succeeds with the empty sequence, and in general a read whose
explicit offset equals the object's length fails even with no size given. -/
theorem mem_read_zero_length (m : MemMap) (p : String) (B : Bytes) :
    (m.get p = some [] →
       Memory.read m { path := p, offset := some 0, size := none }
           = .error (.objectError .other "read" p)
       ∧ Memory.read m { path := p, offset := none, size := none } = .ok [])
    ∧ (m.get p = some B →
       Memory.read m { path := p, offset := some B.length, size := none }
           = .error (.objectError .other "read" p)) := by
  constructor
  · intro h
    constructor <;> simp [Memory.read, h, Memory.applyOffset, Memory.applySize]
  · intro h
    simp [Memory.read, h, Memory.applyOffset]

theorem mem_read_zero_length_witness :
    Memory.read [("z", [])] { path := "z", offset := some 0, size := none }
        = .error (.objectError .other "read" "z")
    ∧ Memory.read [("z", [])] { path := "z", offset := none, size := none } = .ok [] :=
  (mem_read_zero_length [("z", [])] "z" []).1 rfl

end OpenDAL
